import Mathlib

/-!
Shallow embedding of the ST7789 color-dashboard driver
(st7789_rsdesign_color_dashboard_allinone.py): panel constants, the SPI
transport trace, the RGB565 pixel codec, the display initialization and
window/push protocol, the weather page error handling, and the page
rotation scheduler, together with theorems checking the specification
claims against these definitions.
-/

namespace Dashboard

/-! Panel constants, source lines 33 to 38. PAGE_TIME and WEATHER_FRAME_HZ
are Python floats with exactly representable values 6.0; they are embedded
as rationals. -/

def WIDTH : Nat := 172
def HEIGHT : Nat := 320
def X_OFFSET : Nat := 34
def Y_OFFSET : Nat := 0
def PAGE_TIME : ℚ := 6
def WEATHER_FRAME_HZ : ℚ := 6
def TZ_OFFSET_FALLBACK : ℚ := -28800

/-- Observable effect of one low-level driver step on the SPI bus and the
control lines: a command byte written with DC low, one data chunk written by
a single writebytes2 call with DC high, a sleep (in milliseconds), or a
change of the reset line. -/
inductive Ev where
  | cmd (c : Nat)
  | dat (chunk : List Nat)
  | sleepMs (ms : Nat)
  | rstOn
  | rstOff
deriving DecidableEq, Repr

/-- Function cmd (source lines 57 to 59): DC low, write the single byte
c & 0xFF. -/
def cmd (c : Nat) : List Ev := [Ev.cmd (c &&& 0xFF)]

/-- Iteration core of the chunk loop in function data (source lines 61 to
65): for i in range(0, len(b), 4096) the slice b[i:i+4096] is written by one
writebytes2 call. The loop index advances by 4096 each round, so the loop
runs at most len(b) rounds; the first argument is that bound, which makes
the recursion structural. -/
def dataChunksGo : Nat → List Nat → List (List Nat)
  | _, [] => []
  | 0, _ :: _ => []
  | fuel + 1, b :: bs => ((b :: bs).take 4096) :: dataChunksGo fuel ((b :: bs).drop 4096)

/-- Chunk list produced by the loop in function data (source lines 61 to
65). -/
def dataChunks (b : List Nat) : List (List Nat) := dataChunksGo b.length b

/-- Function data (source lines 61 to 65): DC high, then the chunked write
loop; each chunk is one data event on the bus. -/
def data (b : List Nat) : List Ev := (dataChunks b).map Ev.dat

/-- Function reset (source lines 67 to 70): reset line high 50 ms, low 50 ms,
high 150 ms. -/
def reset : List Ev :=
  [Ev.rstOn, Ev.sleepMs 50, Ev.rstOff, Ev.sleepMs 50, Ev.rstOn, Ev.sleepMs 150]

/-- Function init_display (source lines 72 to 81): reset pulse, SWRESET,
SLPOUT, COLMOD 16-bit, MADCTL 0x08, INVON, DISPON. -/
def init_display : List Ev :=
  reset ++
  cmd 0x01 ++ [Ev.sleepMs 150] ++
  cmd 0x11 ++ [Ev.sleepMs 150] ++
  cmd 0x3A ++ data [0x55] ++
  cmd 0x36 ++ data [0x08] ++
  cmd 0x21 ++
  cmd 0x29 ++ [Ev.sleepMs 50]

/-- Function set_window (source lines 83 to 95): column address 0x2A with the
four big-endian bytes of X_OFFSET and X_OFFSET + WIDTH - 1, row address 0x2B
with the analogous bytes from Y_OFFSET and HEIGHT, then RAMWR 0x2C. -/
def set_window : List Ev :=
  let x0 := X_OFFSET
  let x1 := X_OFFSET + WIDTH - 1
  let y0 := Y_OFFSET
  let y1 := Y_OFFSET + HEIGHT - 1
  cmd 0x2A ++
  data [(x0 >>> 8) &&& 0xFF, x0 &&& 0xFF, (x1 >>> 8) &&& 0xFF, x1 &&& 0xFF] ++
  cmd 0x2B ++
  data [(y0 >>> 8) &&& 0xFF, y0 &&& 0xFF, (y1 >>> 8) &&& 0xFF, y1 &&& 0xFF] ++
  cmd 0x2C

/-- Packed 16-bit value of one pixel, the expression on source line 104:
v = ((r & 0xF8) << 8) | ((g & 0xFC) << 3) | (b >> 3). -/
def pack565 (r g b : Nat) : Nat :=
  ((r &&& 0xF8) <<< 8) ||| ((g &&& 0xFC) <<< 3) ||| (b >>> 3)

/-- Function rgb565 (source lines 97 to 108) on the flat RGB byte list
returned by tobytes (three bytes per pixel, row-major): each consecutive
byte triple r, g, b contributes the two bytes (v >> 8) & 0xFF and v & 0xFF. -/
def rgb565 : List Nat → List Nat
  | r :: g :: b :: rest =>
    ((pack565 r g b >>> 8) &&& 0xFF) :: (pack565 r g b &&& 0xFF) :: rgb565 rest
  | _ => []

/-- Flat RGB byte list of a row-major pixel list, the shape of the tobytes
output that rgb565 consumes. -/
def flattenRGB : List (Nat × Nat × Nat) → List Nat
  | [] => []
  | (r, g, b) :: ps => r :: g :: b :: flattenRGB ps

/-- Function push (source lines 110 to 112): set_window, then the packed
pixel stream of the image as data. The argument is the flat RGB byte list of
the image. -/
def push (rgbBytes : List Nat) : List Ev := set_window ++ data (rgb565 rgbBytes)

/-- Modelled from the spec: the spec defines unpacking as expanding the
5/6/5 fields of a packed pixel back to 8-bit channels by left-shift fill;
the source has no unpacking function. -/
def unpack565 (v : Nat) : Nat × Nat × Nat :=
  ((v >>> 11) <<< 3, ((v >>> 5) &&& 0x3F) <<< 2, (v &&& 0x1F) <<< 3)

/-! Pages and the scheduler. Page render functions build a PIL image of
fixed size (WIDTH, HEIGHT); the pixel drawing itself is page-visual glue
outside the core (spec section 1) and no PIL draw call changes the image
size, so the embedding tracks the geometry of the produced frame together
with the field accesses of the weather success path, which can raise
uncaught exceptions in the source and are therefore modelled as fallible. -/

/-- Geometry of a PIL image as produced by Image.new("RGB", (w, h)). -/
structure PilImage where
  width : Nat
  height : Nat
deriving DecidableEq, Repr

/-- Parsed JSON value of an OpenWeatherMap response, as returned by
r.json(): a number, a string, null, an array, or an object. Numeric fields
are num values (the upstream API returns them as JSON numbers). -/
inductive Json where
  | num (q : ℚ)
  | str (s : String)
  | null
  | arr (items : List Json)
  | obj (fields : List (String × Json))

/-- Python subscript d[k]: none where the source raises, that is when the
value is not an object (TypeError) or the key is missing (KeyError). -/
def Json.get? : Json → String → Option Json
  | Json.obj fields, k => fields.lookup k
  | _, _ => none

/-- Python subscript a[i] on a parsed array: none where the source raises
an IndexError, a KeyError or a TypeError. -/
def Json.idx? : Json → Nat → Option Json
  | Json.arr items, i => items.get? i
  | _, _ => none

/-- Numeric content, as required by int(), float(), round() and the numeric
comparisons of the source, which raise on non-numeric values. -/
def Json.asNum : Json → Option ℚ
  | Json.num q => some q
  | _ => none

/-- String content, as required by the .title() and .lower() calls of the
source, which raise an AttributeError on non-strings. -/
def Json.asStr : Json → Option String
  | Json.str s => some s
  | _ => none

/-- Python d.get(k, default): the default when the key is missing, no
exception. The source only reaches its .get calls on values an earlier
subscript proved to be objects. -/
def Json.getD (j : Json) (k : String) (d : Json) : Json :=
  match j.get? k with
  | some v => v
  | none => d

/-- Outcome of the two network fetches inside the try block of page_weather
(source lines 448 to 451): either both parsed JSON responses, or some
exception raised during the fetch and caught by the except clause. -/
inductive FetchOutcome where
  | got (cur fc : Json)
  | raised

/-- Field accesses of the weather success path (source lines 457 to 527) in
source order, each returning none exactly where the Python expression
raises an uncaught KeyError, IndexError, TypeError, AttributeError or
ValueError: the current-weather id/main/description/icon block (lines 457
to 460), int(...) of the timezone (line 462), the main temp/feels/humidity
block (lines 470 to 472), float(...) of the wind speed (line 473), the
rain_1h comparison in severe_banner_text (lines 474 to 479, skipped when
rain is absent, not a dict, or null), the forecast list shape and the
per-item dt reads of compute_tomorrow_hilo (line 499; its main.temp read
for items dated tomorrow depends on the wall clock and is not modelled),
the main.temp and weather[0].icon reads of parse_hourly_strip on the first
six items (line 505), and int(...) of sunrise/sunset (lines 525 to 527).
Drawing calls between the accesses keep the frame geometry and do not
raise. -/
def chk (j : Option Json) : Option Unit :=
  match j with
  | some _ => some ()
  | none => none

/-- An access chain whose value then feeds int(), float(), round() or a
numeric comparison: fails where the access or the coercion raises. -/
def chkNum (j : Option Json) : Option Unit :=
  match j with
  | some v => (v.asNum).map fun _ => ()
  | none => none

/-- An access chain whose value then gets a string method call: fails where
the access raises or the value is not a string. -/
def chkStr (j : Option Json) : Option Unit :=
  match j with
  | some v => (v.asStr).map fun _ => ()
  | none => none

/-- All checks must succeed, as each Python expression must not raise; the
outcome does not depend on which failing expression would raise first. -/
def allOk (checks : List (Option Unit)) : Option Unit :=
  if checks.all fun c => c.isSome then some () else none

/-- Accesses of compute_tomorrow_hilo (source lines 323 to 337) on one
forecast item: the item must be an object (it.get), and its dt value, when
present, must be numeric (now_local adds it to the timezone offset). The
main.temp read for items dated tomorrow depends on the wall clock and is
not modelled. -/
def weatherItemChecks (it : Json) : List (Option Unit) :=
  [ (match it with
     | Json.obj _ => some ()
     | _ => none),
    (match it.get? "dt" with
     | some v => (v.asNum).map fun _ => ()
     | none => some ()) ]

/-- Accesses of parse_hourly_strip (source lines 310 to 321) on one of the
first six forecast items: int(round(it["main"]["temp"])) and
it["weather"][0]["icon"]. -/
def hourlyItemChecks (it : Json) : List (Option Unit) :=
  [ chkNum ((it.get? "main").bind fun m => m.get? "temp"),
    chk (((it.get? "weather").bind fun w => w.idx? 0).bind fun w0 =>
      w0.get? "icon") ]

/-- Shape of fc.get("list", []) followed by slicing and iteration: fc must
be an object (.get), and the list value, when present, must be an array. -/
def forecastList (fc : Json) : Option (List Json) :=
  match fc with
  | Json.obj _ =>
    match fc.get? "list" with
    | some (Json.arr xs) => some xs
    | some _ => none
    | none => some []
  | _ => none

def weatherRenderAccesses (cur fc : Json) : Option Unit :=
  let w0 := (cur.get? "weather").bind fun w => w.idx? 0
  let mainObj := cur.get? "main"
  allOk
    [ chk w0,
      chkNum (w0.bind fun v => v.get? "id"),
      chkStr (w0.bind fun v => v.get? "main"),
      chkStr (w0.bind fun v => v.get? "description"),
      chk (w0.bind fun v => v.get? "icon"),
      chkNum (some (cur.getD "timezone" (Json.num TZ_OFFSET_FALLBACK))),
      chkNum (mainObj.bind fun m => m.get? "temp"),
      chkNum (mainObj.bind fun m => m.get? "feels_like"),
      chkNum (mainObj.bind fun m => m.get? "humidity"),
      chkNum (some ((cur.getD "wind" (Json.obj [])).getD "speed" (Json.num 0))),
      (match cur.get? "rain" with
       | some (Json.obj rainFields) =>
         match rainFields.lookup "1h" with
         | some Json.null => some ()
         | some v => (v.asNum).map fun _ => ()
         | none => some ()
       | _ => some ()),
      (match forecastList fc with
       | some items =>
         allOk ((items.map fun it => allOk (weatherItemChecks it)) ++
                ((items.take 6).map fun it => allOk (hourlyItemChecks it)))
       | none => none),
      chkNum (some ((cur.getD "sys" (Json.obj [])).getD "sunrise" (Json.num 0))),
      chkNum (some ((cur.getD "sys" (Json.obj [])).getD "sunset" (Json.num 0))) ]

/-- Function page_weather (source lines 436 to 530): a WIDTH by HEIGHT
image is created first; if the stripped OWM_API_KEY environment value is
empty the placeholder image is returned; otherwise the fetches run inside
try and any exception there yields the placeholder image from the except
clause; on a successful fetch the field accesses of the rendering run
outside any try, so a failing access propagates out of the function (an
Except.error), and otherwise the fully drawn image is returned (the
anim_phase argument only offsets the icon position and cannot fail). -/
def page_weather (anim_phase : Nat) (apiKeyEnv : String) (fetch : FetchOutcome) :
    Except String PilImage :=
  let img : PilImage := ⟨WIDTH, HEIGHT⟩
  let api := apiKeyEnv.trim
  if api = "" then
    Except.ok img
  else
    match fetch with
    | FetchOutcome.raised => Except.ok img
    | FetchOutcome.got cur fc =>
      let _ := anim_phase
      match weatherRenderAccesses cur fc with
      | some _ => Except.ok img
      | none => Except.error "uncaught exception in weather rendering"

/-- The pages list of function main (source lines 540 to 544), with the
page render functions abstract (they gather host metrics and weather data). -/
def pagesList (perf status weather : Nat → PilImage) :
    List (String × (Nat → PilImage)) :=
  [("PERF", perf), ("STATUS", status), ("WEATHER", weather)]

/-- One scheduler action inside a page visit: a render call with its
animation phase argument, a push of the rendered frame, or a sleep for a
number of seconds. -/
inductive Act where
  | render (phase : Nat)
  | pushFrame (img : PilImage)
  | sleep (secs : ℚ)
deriving DecidableEq, Repr

/-- Animated frame count, source line 552:
frames = max(1, int(PAGE_TIME * WEATHER_FRAME_HZ)). -/
def weatherFrames : Nat := max 1 (PAGE_TIME * WEATHER_FRAME_HZ).floor.toNat

/-- One iteration of the while loop of function main (source lines 547 to
560), for the page at the current index: the WEATHER page runs the animation
loop over phases 0 to frames - 1, any other page is rendered once (phase 0,
the default anim_phase) and pushed once. -/
def visitActs (pg : String × (Nat → PilImage)) : List Act :=
  if pg.1 == "WEATHER" then
    (List.range weatherFrames).flatMap
      (fun k => [Act.render k, Act.pushFrame (pg.2 k), Act.sleep (1 / WEATHER_FRAME_HZ)])
  else
    [Act.render 0, Act.pushFrame (pg.2 0), Act.sleep PAGE_TIME]

/-- Page index of the k-th visit of the while loop of function main: p
starts at 0 and source line 562 sets p = (p + 1) % len(pages) after each
visit. -/
def schedIndex (n : Nat) : Nat → Nat
  | 0 => 0
  | k + 1 => (schedIndex n k + 1) % n

/-- Phases of the render calls in a visit trace, in order. -/
def phasesOf (tr : List Act) : List Nat :=
  tr.filterMap fun a =>
    match a with
    | Act.render k => some k
    | _ => none

/-- Whether an action is a frame push. -/
def isPush : Act → Bool
  | Act.pushFrame _ => true
  | _ => false

/-- Whether an event is a command byte or a data chunk (as opposed to a
sleep or a reset-line change). -/
def isCmdDat : Ev → Bool
  | Ev.cmd _ => true
  | Ev.dat _ => true
  | _ => false

/-- Whether an event is a data chunk. -/
def isDat : Ev → Bool
  | Ev.dat _ => true
  | _ => false

/-! Helper lemmas. -/

theorem dataChunksGo_fuel_eq :
    ∀ f1 f2 (l : List Nat), l.length ≤ f1 → l.length ≤ f2 →
      dataChunksGo f1 l = dataChunksGo f2 l := by
  intro f1
  induction f1 with
  | zero =>
    intro f2 l h1 _
    have hl : l = [] := List.eq_nil_of_length_eq_zero (Nat.le_zero.mp h1)
    subst hl
    cases f2 <;> rfl
  | succ f ih =>
    intro f2 l h1 h2
    cases l with
    | nil => cases f2 <;> rfl
    | cons b bs =>
      cases f2 with
      | zero => simp at h2
      | succ f' =>
        simp only [dataChunksGo]
        congr 1
        apply ih <;> simp [List.length_drop, List.length_cons] at h1 h2 ⊢ <;> omega

theorem dataChunks_cons (b : Nat) (bs : List Nat) :
    dataChunks (b :: bs) =
      ((b :: bs).take 4096) :: dataChunks ((b :: bs).drop 4096) := by
  show dataChunksGo ((b :: bs).length) (b :: bs) = _
  rw [List.length_cons]
  simp only [dataChunksGo]
  congr 1
  apply dataChunksGo_fuel_eq <;> simp [List.length_drop, List.length_cons]

theorem dataChunksGo_flatten :
    ∀ fuel (l : List Nat), l.length ≤ fuel → (dataChunksGo fuel l).flatten = l := by
  intro fuel
  induction fuel with
  | zero =>
    intro l h
    have hl : l = [] := List.eq_nil_of_length_eq_zero (Nat.le_zero.mp h)
    subst hl; rfl
  | succ f ih =>
    intro l h
    cases l with
    | nil => rfl
    | cons b bs =>
      simp only [dataChunksGo, List.flatten_cons]
      rw [ih _ (by simp [List.length_drop, List.length_cons] at h ⊢; omega)]
      exact List.take_append_drop 4096 (b :: bs)

theorem dataChunksGo_mem :
    ∀ fuel (l : List Nat), l.length ≤ fuel →
      ∀ c ∈ dataChunksGo fuel l, c ≠ [] ∧ c.length ≤ 4096 := by
  intro fuel
  induction fuel with
  | zero =>
    intro l h c hc
    have hl : l = [] := List.eq_nil_of_length_eq_zero (Nat.le_zero.mp h)
    subst hl; simp [dataChunksGo] at hc
  | succ f ih =>
    intro l h c hc
    cases l with
    | nil => simp [dataChunksGo] at hc
    | cons b bs =>
      simp only [dataChunksGo, List.mem_cons] at hc
      rcases hc with hc | hc
      · subst hc
        constructor
        · have : ((b :: bs).take 4096).length ≠ 0 := by
            rw [List.length_take]
            simp [List.length_cons]
          exact fun hnil => this (by rw [hnil]; rfl)
        · rw [List.length_take]; omega
      · exact ih _ (by simp [List.length_drop, List.length_cons] at h ⊢; omega) c hc

theorem dataChunksGo_full :
    ∀ fuel (l : List Nat), l.length ≤ fuel →
      ∀ i, i + 1 < (dataChunksGo fuel l).length →
        ((dataChunksGo fuel l).getD i []).length = 4096 := by
  intro fuel
  induction fuel with
  | zero =>
    intro l h i hi
    have hl : l = [] := List.eq_nil_of_length_eq_zero (Nat.le_zero.mp h)
    subst hl; simp [dataChunksGo] at hi
  | succ f ih =>
    intro l h i hi
    cases l with
    | nil => simp [dataChunksGo] at hi
    | cons b bs =>
      simp only [dataChunksGo] at hi ⊢
      cases i with
      | zero =>
        rw [List.getD_cons_zero, List.length_take]
        rw [List.length_cons] at hi
        by_cases hlen : (b :: bs).length ≤ 4096
        · exfalso
          have hdrop : (b :: bs).drop 4096 = [] := by
            apply List.eq_nil_of_length_eq_zero
            rw [List.length_drop]; omega
          rw [hdrop] at hi
          cases f <;> simp [dataChunksGo] at hi
        · simp [List.length_cons] at hlen ⊢; omega
      | succ j =>
        rw [List.getD_cons_succ]
        apply ih _ (by simp [List.length_drop, List.length_cons] at h ⊢; omega)
        simpa using hi

/-- Length of the packed stream is two bytes per pixel, for any pixel list
(no size check anywhere in rgb565). -/
theorem rgb565_flattenRGB_length (ps : List (Nat × Nat × Nat)) :
    (rgb565 (flattenRGB ps)).length = 2 * ps.length := by
  induction ps with
  | nil => rfl
  | cons p ps ih =>
    obtain ⟨r, g, b⟩ := p
    simp only [flattenRGB, rgb565, List.length_cons, ih]
    omega

/-- The push trace of any frame: the evaluated fixed addressing window
followed by the packed stream as data. -/
theorem push_eq_window_append (rgbBytes : List Nat) :
    push rgbBytes =
      [Ev.cmd 0x2A, Ev.dat [0x00, 0x22, 0x00, 0xCD],
       Ev.cmd 0x2B, Ev.dat [0x00, 0x00, 0x01, 0x3F],
       Ev.cmd 0x2C] ++ data (rgb565 rgbBytes) := by
  have h : set_window =
      [Ev.cmd 0x2A, Ev.dat [0x00, 0x22, 0x00, 0xCD],
       Ev.cmd 0x2B, Ev.dat [0x00, 0x00, 0x01, 0x3F],
       Ev.cmd 0x2C] := by decide
  unfold push
  rw [h]

/-! Claim theorems. -/

/-- C2: every push call re-sends the addressing window before the data: the
trace is command 0x2A with data bytes 00 22 00 CD (from X_OFFSET = 34 and
X_OFFSET + WIDTH - 1 = 205), command 0x2B with data bytes 00 00 01 3F (from
Y_OFFSET = 0 and Y_OFFSET + HEIGHT - 1 = 319), command 0x2C with no data of
its own, then the packed pixel stream as data, in this fixed order, for
every frame. -/
theorem push_resends_window (rgbBytes : List Nat) :
    push rgbBytes =
      [Ev.cmd 0x2A, Ev.dat [0x00, 0x22, 0x00, 0xCD],
       Ev.cmd 0x2B, Ev.dat [0x00, 0x00, 0x01, 0x3F],
       Ev.cmd 0x2C] ++ data (rgb565 rgbBytes) :=
  push_eq_window_append rgbBytes

/-- C3: after the reset pulse, init_display emits exactly the command/data
phases 0x01, 0x11, 0x3A with data byte 0x55, 0x36 with one data byte (0x08),
0x21, 0x29, in this order. -/
theorem init_display_sequence :
    init_display.take reset.length = reset ∧
    reset.filter isCmdDat = [] ∧
    (init_display.drop reset.length).filter isCmdDat =
      [Ev.cmd 0x01, Ev.cmd 0x11, Ev.cmd 0x3A, Ev.dat [0x55],
       Ev.cmd 0x36, Ev.dat [0x08], Ev.cmd 0x21, Ev.cmd 0x29] := by
  refine ⟨by decide, by decide, by decide⟩

/-- C9: the chunks transmitted by one data call are consecutive slices of at
most 4096 bytes (every chunk but the last exactly 4096), their concatenation
is the input byte sequence, and every transmitted event is a data chunk (no
command byte between chunks). -/
theorem data_chunk_transparent (b : List Nat) :
    (dataChunks b).flatten = b ∧
    (∀ c ∈ dataChunks b, c ≠ [] ∧ c.length ≤ 4096) ∧
    (∀ i, i + 1 < (dataChunks b).length → ((dataChunks b).getD i []).length = 4096) ∧
    (data b).all isDat = true := by
  refine ⟨dataChunksGo_flatten _ b le_rfl,
          dataChunksGo_mem _ b le_rfl,
          dataChunksGo_full _ b le_rfl,
          ?_⟩
  simp [data, isDat, List.all_map]

theorem data_chunk_transparent_witness :
    (dataChunks [1, 2, 3]).flatten = [1, 2, 3] ∧
    ([1, 2, 3] ≠ ([] : List Nat) ∧ ([1, 2, 3] : List Nat).length ≤ 4096) := by
  exact ⟨(data_chunk_transparent [1, 2, 3]).1,
         (data_chunk_transparent [1, 2, 3]).2.1 [1, 2, 3] (by decide)⟩

/-- C10: push validates nothing about the frame size: for any pixel list
whose size differs from the configured WIDTH * HEIGHT, push still sends the
same fixed addressing window followed by 2 * (pixel count) packed bytes,
which does not match the window. -/
theorem push_no_size_validation (pixels : List (Nat × Nat × Nat))
    (hsz : pixels.length ≠ WIDTH * HEIGHT) :
    push (flattenRGB pixels) =
      [Ev.cmd 0x2A, Ev.dat [0x00, 0x22, 0x00, 0xCD],
       Ev.cmd 0x2B, Ev.dat [0x00, 0x00, 0x01, 0x3F],
       Ev.cmd 0x2C] ++ data (rgb565 (flattenRGB pixels)) ∧
    (rgb565 (flattenRGB pixels)).length = 2 * pixels.length ∧
    (rgb565 (flattenRGB pixels)).length ≠ 2 * (WIDTH * HEIGHT) := by
  refine ⟨push_eq_window_append _, rgb565_flattenRGB_length pixels, ?_⟩
  rw [rgb565_flattenRGB_length pixels]
  omega

theorem push_no_size_validation_witness :
    ([((0 : Nat), (0 : Nat), (0 : Nat))].length ≠ WIDTH * HEIGHT) ∧
    (rgb565 (flattenRGB [(0, 0, 0)])).length ≠ 2 * (WIDTH * HEIGHT) := by
  exact ⟨by decide, (push_no_size_validation [(0, 0, 0)] (by decide)).2.2⟩

/-- Masking with 255 is reduction mod 256. -/
theorem and255_eq_mod (x : Nat) : x &&& 255 = x % 256 := by
  have h := Nat.and_pow_two_sub_one_eq_mod x 8
  norm_num at h
  exact h

/-- Masking with 63 is reduction mod 64. -/
theorem and63_eq_mod (x : Nat) : x &&& 63 = x % 64 := by
  have h := Nat.and_pow_two_sub_one_eq_mod x 6
  norm_num at h
  exact h

/-- Masking with 31 is reduction mod 32. -/
theorem and31_eq_mod (x : Nat) : x &&& 31 = x % 32 := by
  have h := Nat.and_pow_two_sub_one_eq_mod x 5
  norm_num at h
  exact h

set_option maxRecDepth 4096 in
/-- Masking a byte with 0xF8 truncates its low three bits. -/
theorem and248_eq (r : Nat) (h : r < 256) : r &&& 0xF8 = r / 8 * 8 := by
  have key : ∀ x : Fin 256, x.val &&& 0xF8 = x.val / 8 * 8 := by decide
  exact key ⟨r, h⟩

set_option maxRecDepth 4096 in
/-- Masking a byte with 0xFC truncates its low two bits. -/
theorem and252_eq (g : Nat) (h : g < 256) : g &&& 0xFC = g / 4 * 4 := by
  have key : ∀ x : Fin 256, x.val &&& 0xFC = x.val / 4 * 4 := by decide
  exact key ⟨g, h⟩

/-- Arithmetic form of the packed pixel value: the three channel fields
occupy disjoint bit ranges, so the bitwise ors are additions. -/
theorem pack565_eq (r g b : Nat) (hr : r < 256) (hg : g < 256) (hb : b < 256) :
    pack565 r g b = r / 8 * 2048 + g / 4 * 32 + b / 8 := by
  have h1 := and248_eq r hr
  have h2 := and252_eq g hg
  unfold pack565
  rw [h1, h2, Nat.shiftLeft_eq, Nat.shiftLeft_eq, Nat.shiftRight_eq_div_pow]
  have e1 : r / 8 * 8 * 2 ^ 8 = 2 ^ 11 * (r / 8) := by ring
  have hgloc : g / 4 * 4 * 2 ^ 3 < 2 ^ 11 := by norm_num; omega
  rw [e1, ← Nat.mul_add_lt_is_or hgloc (r / 8)]
  have e2 : 2 ^ 11 * (r / 8) + g / 4 * 4 * 2 ^ 3 = 2 ^ 5 * (64 * (r / 8) + g / 4) := by
    ring
  have hbloc : b / 2 ^ 3 < 2 ^ 5 := by norm_num; omega
  rw [e2, ← Nat.mul_add_lt_is_or hbloc _]
  norm_num
  ring

/-- The packed pixel value of byte channels fits in 16 bits. -/
theorem pack565_lt (r g b : Nat) (hr : r < 256) (hg : g < 256) (hb : b < 256) :
    pack565 r g b < 65536 := by
  rw [pack565_eq r g b hr hg hb]
  omega

/-- Byte pair of pixel i in the packed stream, by induction over the pixel
list. -/
theorem rgb565_get_pixel :
    ∀ pixels : List (Nat × Nat × Nat),
      (∀ p ∈ pixels, p.1 < 256 ∧ p.2.1 < 256 ∧ p.2.2 < 256) →
      ∀ i : Fin pixels.length,
        (rgb565 (flattenRGB pixels)).getD (2 * i.val) 0 =
          pack565 (pixels.get i).1 (pixels.get i).2.1 (pixels.get i).2.2 / 256 ∧
        (rgb565 (flattenRGB pixels)).getD (2 * i.val + 1) 0 =
          pack565 (pixels.get i).1 (pixels.get i).2.1 (pixels.get i).2.2 % 256 := by
  intro pixels
  induction pixels with
  | nil => exact fun _ i => i.elim0
  | cons p ps ih =>
    intro hbytes i
    obtain ⟨r, g, b⟩ := p
    obtain ⟨⟨hr, hg, hb⟩, htail⟩ := List.forall_mem_cons.mp hbytes
    have hlt : pack565 r g b < 65536 := pack565_lt r g b hr hg hb
    cases i using Fin.cases with
    | zero =>
      constructor
      · show ((pack565 r g b >>> 8) &&& 0xFF) = pack565 r g b / 256
        rw [Nat.shiftRight_eq_div_pow, and255_eq_mod]
        norm_num
        omega
      · show (pack565 r g b &&& 0xFF) = pack565 r g b % 256
        exact and255_eq_mod _
    | succ j =>
      have e1 : 2 * (Fin.succ j).val = 2 * j.val + 1 + 1 := by
        simp [Fin.val_succ]; omega
      have e2 : 2 * (Fin.succ j).val + 1 = (2 * j.val + 1) + 1 + 1 := by
        simp [Fin.val_succ]; omega
      have hj := ih htail j
      constructor
      · rw [e1]
        show (rgb565 (flattenRGB ((r, g, b) :: ps))).getD (2 * j.val + 1 + 1) 0 = _
        simp only [flattenRGB, rgb565, List.getD_cons_succ]
        exact hj.1
      · rw [e2]
        simp only [flattenRGB, rgb565, List.getD_cons_succ]
        exact hj.2

/-- C1: for a row-major frame of byte pixels, the packed stream has exactly
two bytes per pixel (so 2 * width * height bytes for a width times height
frame), and pixel i is encoded as the 16-bit value
((r and 0xF8) shl 8) or ((g and 0xFC) shl 3) or (b shr 3), with its
most-significant byte at offset 2 i and its least-significant byte at
offset 2 i + 1. -/
theorem rgb565_frame_encoding (pixels : List (Nat × Nat × Nat)) (w h : Nat)
    (hwh : pixels.length = w * h)
    (hbytes : ∀ p ∈ pixels, p.1 < 256 ∧ p.2.1 < 256 ∧ p.2.2 < 256) :
    (rgb565 (flattenRGB pixels)).length = 2 * (w * h) ∧
    ∀ i : Fin pixels.length,
      (rgb565 (flattenRGB pixels)).getD (2 * i.val) 0 =
        pack565 (pixels.get i).1 (pixels.get i).2.1 (pixels.get i).2.2 / 256 ∧
      (rgb565 (flattenRGB pixels)).getD (2 * i.val + 1) 0 =
        pack565 (pixels.get i).1 (pixels.get i).2.1 (pixels.get i).2.2 % 256 := by
  refine ⟨?_, rgb565_get_pixel pixels hbytes⟩
  rw [← hwh]
  exact rgb565_flattenRGB_length pixels

theorem rgb565_frame_encoding_witness :
    (rgb565 (flattenRGB [((255 : Nat), (130 : Nat), (9 : Nat))])).length = 2 * (1 * 1) := by
  exact (rgb565_frame_encoding [(255, 130, 9)] 1 1 (by decide) (by decide)).1

/-- C8: packing a byte-channel color and expanding the 5/6/5 fields back by
left-shift fill reproduces each channel within its truncation error: at most
7 for red and blue, at most 3 for green, and never above the original. -/
theorem rgb565_roundtrip_bound (r g b : Nat)
    (hr : r < 256) (hg : g < 256) (hb : b < 256) :
    (unpack565 (pack565 r g b)).1 ≤ r ∧ r - (unpack565 (pack565 r g b)).1 ≤ 7 ∧
    (unpack565 (pack565 r g b)).2.1 ≤ g ∧ g - (unpack565 (pack565 r g b)).2.1 ≤ 3 ∧
    (unpack565 (pack565 r g b)).2.2 ≤ b ∧ b - (unpack565 (pack565 r g b)).2.2 ≤ 7 := by
  rw [pack565_eq r g b hr hg hb]
  unfold unpack565
  simp only [Nat.shiftRight_eq_div_pow, Nat.shiftLeft_eq, and63_eq_mod, and31_eq_mod]
  norm_num
  omega

theorem rgb565_roundtrip_bound_witness :
    (unpack565 (pack565 200 100 50)).1 ≤ 200 ∧
    200 - (unpack565 (pack565 200 100 50)).1 ≤ 7 ∧
    (unpack565 (pack565 200 100 50)).2.1 ≤ 100 ∧
    100 - (unpack565 (pack565 200 100 50)).2.1 ≤ 3 ∧
    (unpack565 (pack565 200 100 50)).2.2 ≤ 50 ∧
    50 - (unpack565 (pack565 200 100 50)).2.2 ≤ 7 := by
  exact rgb565_roundtrip_bound 200 100 50 (by decide) (by decide) (by decide)

/-- The animated frame count evaluates to 36 with the configured timing. -/
theorem weatherFrames_eq : weatherFrames = 36 := by
  norm_num [weatherFrames, PAGE_TIME, WEATHER_FRAME_HZ, Rat.floor]; rfl

/-- Render phases of one animation block list, in order. -/
theorem phasesOf_blocks (n : Nat) (f : Nat → PilImage) (s : ℚ) :
    phasesOf ((List.range n).flatMap
      (fun k => [Act.render k, Act.pushFrame (f k), Act.sleep s])) = List.range n := by
  induction n with
  | zero => rfl
  | succ n ih =>
    rw [List.range_succ, List.flatMap_append, phasesOf, List.filterMap_append]
    rw [phasesOf] at ih
    rw [ih]
    rfl

/-- Push count of one animation block list. -/
theorem countP_push_blocks (n : Nat) (f : Nat → PilImage) (s : ℚ) :
    ((List.range n).flatMap
      (fun k => [Act.render k, Act.pushFrame (f k), Act.sleep s])).countP isPush = n := by
  induction n with
  | zero => rfl
  | succ n ih =>
    rw [List.range_succ, List.flatMap_append, List.countP_append, ih]
    rfl

/-- C4: one visit of the animated WEATHER page performs
max(1, floor(PAGE_TIME * WEATHER_FRAME_HZ)) = 36 render calls with phase
arguments 0 to 35 in strictly increasing order with no phase skipped, each
render immediately followed by the push of its frame, and the phase counter
starts again at 0 on every visit (the visit trace is the same fixed block
sequence each time). -/
theorem weather_visit_phases (w : Nat → PilImage) :
    weatherFrames = 36 ∧
    visitActs ("WEATHER", w) =
      (List.range 36).flatMap
        (fun k => [Act.render k, Act.pushFrame (w k), Act.sleep (1 / WEATHER_FRAME_HZ)]) ∧
    phasesOf (visitActs ("WEATHER", w)) = List.range 36 ∧
    (visitActs ("WEATHER", w)).countP isPush = 36 := by
  have htr : visitActs ("WEATHER", w) =
      (List.range 36).flatMap
        (fun k => [Act.render k, Act.pushFrame (w k), Act.sleep (1 / WEATHER_FRAME_HZ)]) := by
    simp only [visitActs, weatherFrames_eq]
    rfl
  refine ⟨weatherFrames_eq, htr, ?_, ?_⟩
  · rw [htr]; exact phasesOf_blocks 36 w _
  · rw [htr]; exact countP_push_blocks 36 w _

/-- C5: one visit of a static (non-WEATHER) page performs exactly one render
call, at phase 0, and exactly one push, then sleeps for the page interval. -/
theorem static_visit_once (name : String) (f : Nat → PilImage)
    (h : name ≠ "WEATHER") :
    visitActs (name, f) = [Act.render 0, Act.pushFrame (f 0), Act.sleep PAGE_TIME] ∧
    phasesOf (visitActs (name, f)) = [0] ∧
    (visitActs (name, f)).countP isPush = 1 := by
  have hb : (name == "WEATHER") = false := beq_eq_false_iff_ne.mpr h
  have htr : visitActs (name, f) =
      [Act.render 0, Act.pushFrame (f 0), Act.sleep PAGE_TIME] := by
    simp [visitActs, hb]
  refine ⟨htr, ?_, ?_⟩ <;> rw [htr] <;> rfl

theorem static_visit_once_witness :
    visitActs ("PERF", fun _ => PilImage.mk 0 0) =
      [Act.render 0, Act.pushFrame (PilImage.mk 0 0), Act.sleep PAGE_TIME] := by
  exact (static_visit_once "PERF" (fun _ => PilImage.mk 0 0) (by decide)).1

/-- Page index of visit k is k mod 3. -/
theorem schedIndex_three (k : Nat) : schedIndex 3 k = k % 3 := by
  induction k with
  | zero => rfl
  | succ k ih =>
    show (schedIndex 3 k + 1) % 3 = (k + 1) % 3
    rw [ih]
    omega

/-- Closed form for how often page i appears among the first N visits. -/
theorem schedCount_formula (N i : Nat) (hi : i < 3) :
    ((List.range N).map (schedIndex 3)).count i
      = N / 3 + (if i < N % 3 then 1 else 0) := by
  induction N with
  | zero => simp
  | succ N ih =>
    rw [List.range_succ, List.map_append, List.count_append, ih]
    have hsing : ([schedIndex 3 N] : List Nat).count i
        = if N % 3 = i then 1 else 0 := by
      rw [schedIndex_three]
      by_cases hc : N % 3 = i <;> simp [hc, List.count_cons]
    rw [List.map_cons, List.map_nil, hsing]
    by_cases h1 : i < N % 3 <;> by_cases h2 : N % 3 = i <;>
      by_cases h3 : i < (N + 1) % 3 <;> simp [h1, h2, h3] <;> omega

/-- C6: the scheduler cycles the 3-page list in fixed round-robin order: the
k-th visit lands on page k mod 3 (so the index after each visit is the
previous index plus one, mod the page count), and among any first N visits
each page i is visited either floor(N/3) or ceil(N/3) times. -/
theorem scheduler_round_robin (perf status weather : Nat → PilImage) :
    (pagesList perf status weather).length = 3 ∧
    (∀ k, schedIndex (pagesList perf status weather).length k = k % 3) ∧
    ∀ N i, i < 3 →
      ((List.range N).map (schedIndex (pagesList perf status weather).length)).count i
          = N / 3 ∨
      ((List.range N).map (schedIndex (pagesList perf status weather).length)).count i
          = (N + 2) / 3 := by
  refine ⟨rfl, fun k => schedIndex_three k, ?_⟩
  intro N i hi
  show ((List.range N).map (schedIndex 3)).count i = N / 3 ∨
       ((List.range N).map (schedIndex 3)).count i = (N + 2) / 3
  rw [schedCount_formula N i hi]
  by_cases hc : i < N % 3
  · right; simp [hc]; omega
  · left; simp [hc]

theorem scheduler_round_robin_witness :
    ((List.range 7).map
        (schedIndex (pagesList (fun _ => PilImage.mk 0 0) (fun _ => PilImage.mk 0 0)
          (fun _ => PilImage.mk 0 0)).length)).count 1 = 7 / 3 ∨
    ((List.range 7).map
        (schedIndex (pagesList (fun _ => PilImage.mk 0 0) (fun _ => PilImage.mk 0 0)
          (fun _ => PilImage.mk 0 0)).length)).count 1 = (7 + 2) / 3 := by
  exact (scheduler_round_robin _ _ _).2.2 7 1 (by decide)

/-- A fetched response without the expected fields makes page_weather
propagate a failure, as the uncaught KeyError of the source does: the
handled failure branches of C7 are not vacuous consequences of a total
success path. -/
theorem weather_page_malformed_success_errors (key : String)
    (hk : key.trim ≠ "") :
    page_weather 0 key (FetchOutcome.got Json.null Json.null) =
      Except.error "uncaught exception in weather rendering" := by
  simp [page_weather, hk, weatherRenderAccesses, Json.get?]
  rfl

/-- C7: when the weather page fails internally (empty OWM_API_KEY after
strip, or an exception raised during the network fetch), page_weather
still returns the full-size WIDTH by HEIGHT placeholder frame by a normal
return instead of propagating the failure, so the scheduler observes no
error in these cases and the rotation proceeds. -/
theorem weather_page_failure_placeholder (phase : Nat) (key : String)
    (fetch : FetchOutcome)
    (h : key.trim = "" ∨ fetch = FetchOutcome.raised) :
    page_weather phase key fetch = Except.ok (PilImage.mk WIDTH HEIGHT) := by
  rcases h with h | h
  · simp [page_weather, h]
  · subst h
    by_cases hk : key.trim = "" <;> simp [page_weather, hk]

theorem weather_page_failure_placeholder_witness :
    page_weather 0 "x" FetchOutcome.raised = Except.ok (PilImage.mk WIDTH HEIGHT) := by
  exact weather_page_failure_placeholder 0 "x" FetchOutcome.raised (Or.inr rfl)

end Dashboard
